import Mathlib

set_option maxRecDepth 10000

/-
Verification of the single-file chat application (src/app.py) against its
design specification.  The program is a single Streamlit script; the
definitions below are a shallow embedding of its session state and of the
handlers the specification talks about.  Line numbers in the doc comments
refer to src/app.py.

External calls (the generative-AI file store, the generation endpoint, the
local file system) are modelled by explicit parameters describing the
outcome of each call: a call either returns a value or raises, and the
handlers below are functions of those outcomes.  One control-flow effect of
the widget framework is modelled explicitly: st.rerun() (lines 115, 124,
138, 150, 155) restarts the script run and never returns to the following
statement, so any code after it in the same handler is not executed on that
path.
-/

/-- A handle returned by the remote file store.  Mirrors the fields the
program reads: `name` (line 107), `display_name` (lines 132, 144) and the
state tag string `state.name` (lines 105, 109), which takes values such as
"PROCESSING", "ACTIVE" and "FAILED". -/
structure GeminiFile where
  name : String
  display_name : String
  state : String
deriving DecidableEq, Repr

/-- The per-session mutable state the program keeps in st.session_state
(lines 56-61): `chat_history`, a list of (role, message) pairs, and
`current_file_uri`, the optional active file handle.  The third key
initialised at lines 58-59, `uploaded_files_cache`, is never read or
written anywhere else in the program and is therefore omitted. -/
structure SessionState where
  chat_history : List (String × String)
  current_file_uri : Option GeminiFile
deriving DecidableEq, Repr

/-- The two values of the `chat_mode` radio widget (line 85). -/
inductive ChatMode
  | singleDocument
  | allDocuments
deriving DecidableEq, Repr

/-- Outcome of a call to genai.list_files(): either the listing, or the
call raised. -/
inductive ListResult
  | ok (files : List GeminiFile)
  | err
deriving DecidableEq, Repr

/-- Why the context check (lines 164-180) stopped the script run. -/
inductive BlockReason
  | noActiveFile
  | noFilesOnServer
  | listFailed
deriving DecidableEq, Repr

/-- Result of the context check at lines 164-180: either the script is
stopped with st.stop() before the chat input is reached, or `active_files`
is resolved to a concrete list of handles. -/
inductive ContextResolution
  | blocked (r : BlockReason)
  | resolved (files : List GeminiFile)
deriving DecidableEq, Repr

/-- The context check, lines 164-180.  In Single Document mode the listing
is never consulted: a missing `current_file_uri` stops the run (lines
167-169), otherwise `active_files = [st.session_state.current_file_uri]`
(line 170).  In All Documents mode `active_files = list(genai.list_files())`
is re-fetched on this very run (line 174); an empty listing stops the run
with a warning (lines 175-177) and a raised listing call stops it with an
error (lines 178-180). -/
def resolveContext (mode : ChatMode) (current_file_uri : Option GeminiFile)
    (listing : ListResult) : ContextResolution :=
  match mode with
  | ChatMode.singleDocument =>
    match current_file_uri with
    | none => ContextResolution.blocked BlockReason.noActiveFile
    | some h => ContextResolution.resolved [h]
  | ChatMode.allDocuments =>
    match listing with
    | ListResult.err => ContextResolution.blocked BlockReason.listFailed
    | ListResult.ok files =>
      if files = [] then ContextResolution.blocked BlockReason.noFilesOnServer
      else ContextResolution.resolved files

/-- Python str.upper() restricted to what the program applies it to
(line 218): ASCII uppercasing of the stored role tags "user" and
"assistant". -/
def strUpper (s : String) : String := String.mk (s.data.map Char.toUpper)

/-- One line of the history rendering, line 218 of the loop body:
f"\x7brole.upper()\x7d: \x7bmsg\x7d\n". -/
def render_line (rm : String × String) : String :=
  strUpper rm.1 ++ ": " ++ rm.2 ++ "\n"

/-- The accumulation loop of lines 216-218, as a left fold starting from
the empty string. -/
def render_turns (ts : List (String × String)) : String :=
  ts.foldl (fun acc rm => acc ++ render_line rm) ""

/-- `context_prompt` of lines 216-218: the fold is taken over
chat_history[:-1], i.e. over every turn except the newest (the user turn
appended at line 190 of the same run). -/
def context_prompt (history : List (String × String)) : String :=
  render_turns history.dropLast

/-- The literal `system_prompt` string of lines 207-214 (a Python
triple-quoted string: a leading newline, five numbered instruction lines
each indented by twelve spaces, and a trailing indented blank). -/
def system_prompt : String :=
  "\n            INSTRUCTIONS:\n            1. You are a Knowledge Base Assistant.\n            2. Answer the user\x27s question STRICTLY based on the provided documents.\n            3. Do NOT use outside knowledge or general training data.\n            4. If the answer cannot be found in the documents, politely state that the information is not present in the files.\n            5. Cite the document name if possible.\n            "

/-- `final_prompt` of line 220:
f"\x7bsystem_prompt\x7d\n\n\x7bcontext_prompt\x7d\nUSER: \x7bprompt\x7d\nASSISTANT:".
`history` is the chat history as it stands at line 220, i.e. with the
newest user turn already appended. -/
def final_prompt (history : List (String × String)) (prompt : String) : String :=
  system_prompt ++ "\n\n" ++ context_prompt history ++ "\nUSER: " ++ prompt ++ "\nASSISTANT:"

/-- Observable outcome of one script run through lines 164-232 for a
submitted chat input: the session state afterwards, the argument pair
(active_files, final_prompt) of the generate_content call at lines 223-225
(none when the run was stopped before generation), whether the error
branch at lines 231-232 ran, and the stop reason when the context check
stopped the run. -/
structure TurnOutcome where
  session : SessionState
  generationCall : Option (List GeminiFile × String)
  errorShown : Bool
  blockReason : Option BlockReason
deriving DecidableEq, Repr

/-- One submitted chat turn, lines 164-232.  `listing` is the outcome of
the genai.list_files() call of line 174 (consulted only in All Documents
mode); `genResult` is the outcome of the generate_content call of line
225: `some text` when it returns `response.text`, `none` when it raises.
The user turn is appended at line 190 before generation; on success the
assistant turn is appended at line 229; on an exception the error is shown
in place of the reply (line 232) and nothing is appended. -/
def runTurn (mode : ChatMode) (s : SessionState) (listing : ListResult)
    (prompt : String) (genResult : Option String) : TurnOutcome :=
  match resolveContext mode s.current_file_uri listing with
  | ContextResolution.blocked r =>
    { session := s, generationCall := none, errorShown := false, blockReason := some r }
  | ContextResolution.resolved files =>
    match genResult with
    | some resp =>
      { session := { s with chat_history := (s.chat_history ++ [("user", prompt)]) ++ [("assistant", resp)] }
        generationCall := some (files, final_prompt (s.chat_history ++ [("user", prompt)]) prompt)
        errorShown := false
        blockReason := none }
    | none =>
      { session := { s with chat_history := s.chat_history ++ [("user", prompt)] }
        generationCall := some (files, final_prompt (s.chat_history ++ [("user", prompt)]) prompt)
        errorShown := true
        blockReason := none }

/-- A sequence of submitted turns: each element carries the listing
outcome for that run, the submitted prompt, and the generation outcome.
Returns the session state after the whole sequence. -/
def runTurns (mode : ChatMode) (s : SessionState) :
    List (ListResult × String × Option String) → SessionState
  | [] => s
  | t :: rest => runTurns mode (runTurn mode s t.1 t.2.1 t.2.2).session rest

/-- A turn whose generation call succeeds with the given reply text. -/
def succTurn (t : ListResult × String × String) : ListResult × String × Option String :=
  (t.1, t.2.1, some t.2.2)

/-- The (user, assistant) pair sequence a list of successful turns leaves
in the conversation log: for each turn its user prompt followed by the
assistant reply, in chronological order. -/
def turnPairs : List (ListResult × String × String) → List (String × String)
  | [] => []
  | t :: ts => ("user", t.2.1) :: ("assistant", t.2.2) :: turnPairs ts

/-- The Clear Chat History button handler, lines 153-155: it assigns
st.session_state.chat_history = [] and reruns.  It touches neither
current_file_uri nor the chat_mode widget value. -/
def clearChat (s : SessionState) : SessionState :=
  { s with chat_history := [] }

/-- The Load Selected File button handler, line 136: it assigns the chosen
handle to st.session_state.current_file_uri unconditionally; no field of
the handle, in particular not its state tag, is inspected. -/
def loadSelectedFile (s : SessionState) (f : GeminiFile) : SessionState :=
  { s with current_file_uri := some f }

/-- The credential computation of lines 67-74: `api_key` is the text-input
value when that value is non-empty (Python truthiness of a string), and
None otherwise; the environment fallback at lines 73-74 is commented out,
so the GEMINI_API_KEY environment value is never consulted. -/
def api_key (api_key_input : String) (env_gemini_api_key : Option String) : Option String :=
  if api_key_input = "" then none else some api_key_input

/-- Whether the script run proceeds past the credential gate of lines
76-81: with no key, st.stop() at line 81 ends the run. -/
inductive AppStart
  | stoppedNoKey
  | running (key : String)
deriving DecidableEq, Repr

/-- The credential gate, lines 76-81. -/
def startApp (api_key_input : String) (env_gemini_api_key : Option String) : AppStart :=
  match api_key api_key_input env_gemini_api_key with
  | none => AppStart.stoppedNoKey
  | some k => AppStart.running k

/-- Result of the poll loop of lines 105-107 against a list of successive
genai.get_file outcomes: the loop exits with the first handle whose state
tag differs from "PROCESSING"; a get_file call may raise; if every
provided response still reads "PROCESSING" the loop is still running
(the loop itself has no bound, so this models an unfinished poll). -/
inductive PollResult
  | terminal (f : GeminiFile)
  | raised
  | exhausted
deriving DecidableEq, Repr

/-- The while loop of lines 105-107. -/
def pollLoop : GeminiFile → List (Option GeminiFile) → PollResult
  | f, responses =>
    if f.state = "PROCESSING" then
      match responses with
      | [] => PollResult.exhausted
      | none :: _ => PollResult.raised
      | some g :: gs => pollLoop g gs
    else PollResult.terminal f

/-- Outcomes of the external calls made by the upload handler, lines
97-107: whether the open/write of lines 99-100 succeeded, the outcome of
genai.upload_file at line 102 (none when it raised; the write has happened
by then), and the successive genai.get_file outcomes consumed by the poll
loop of lines 105-107. -/
structure UploadEnv where
  writeOk : Bool
  uploadResult : Option GeminiFile
  pollResponses : List (Option GeminiFile)
deriving DecidableEq, Repr

/-- Observable outcome of the upload handler: the session state
afterwards, whether the transient temp_<name> file still exists on disk,
whether st.error ran, whether st.success ran, and whether st.rerun was
reached. -/
structure UploadResult where
  session : SessionState
  tempExists : Bool
  errorShown : Bool
  successShown : Bool
  didRerun : Bool
deriving DecidableEq, Repr

/-- The Upload to Gemini button handler, lines 95-120.  Control flow of
the source, traced path by path:
= open/write raises (lines 99-100): caught at line 119, st.error shown, no
  temp file was created, session untouched.
= upload_file raises (line 102): caught at line 119, st.error shown; the
  temp file was already written and the cleanup of lines 117-118 sits
  before the except clause, so the jump to the handler skips it and the
  temp file remains.
= a get_file call raises (line 107): same as the previous path.
= poll loop exits with state "FAILED" (lines 109-110): st.error shown,
  current_file_uri untouched, and execution falls through to lines 117-118
  which delete the temp file.
= poll loop exits with any other terminal state (lines 111-115):
  current_file_uri is assigned the handle, st.success shown, and
  st.rerun() at line 115 ends the run before the cleanup of lines 117-118,
  so the temp file remains on disk.
= poll loop still running: no outcome yet (`none`). -/
def uploadHandler (s : SessionState) (e : UploadEnv) : Option UploadResult :=
  if e.writeOk then
    match e.uploadResult with
    | none => some ⟨s, true, true, false, false⟩
    | some f0 =>
      match pollLoop f0 e.pollResponses with
      | PollResult.exhausted => none
      | PollResult.raised => some ⟨s, true, true, false, false⟩
      | PollResult.terminal f =>
        if f.state = "FAILED" then
          some ⟨s, false, true, false, false⟩
        else
          some ⟨{ s with current_file_uri := some f }, true, false, true, true⟩
  else
    some ⟨s, false, true, false, false⟩

/-- Either the open/write, the upload call, or one of the poll calls of
the upload handler raised. -/
def raisedDuringUpload (e : UploadEnv) : Prop :=
  e.writeOk = false ∨ e.uploadResult = none ∨
    (∃ f0, e.uploadResult = some f0 ∧ pollLoop f0 e.pollResponses = PollResult.raised)

/-- Splits a character list at newline characters. -/
def splitLinesAux : List Char → List (List Char)
  | [] => [[]]
  | c :: rest =>
    if c = '\n' then [] :: splitLinesAux rest
    else
      match splitLinesAux rest with
      | [] => [[c]]
      | l :: ls => (c :: l) :: ls

/-- The lines of a string, split at newline characters. -/
def splitLines (s : String) : List String :=
  (splitLinesAux s.data).map (fun cs => String.mk cs)

/-- Whether a line, after its leading spaces, begins with a digit followed
by a period, i.e. is one of the numbered instruction lines of the system
block. -/
def isNumberedLine (s : String) : Bool :=
  match s.data.dropWhile (fun c => c = ' ') with
  | c :: d :: _ => c.isDigit && d = '.'
  | _ => false

/-- Number of numbered instruction lines in a string. -/
def countNumberedLines (s : String) : Nat :=
  ((splitLines s).filter (fun l => isNumberedLine l)).length

/-- Sample handles and session used by concrete evaluations below. -/
def fileProcessing : GeminiFile := ⟨"files/r1", "report.pdf", "PROCESSING"⟩

def fileReady : GeminiFile := ⟨"files/r1", "report.pdf", "ACTIVE"⟩

def fileFailed : GeminiFile := ⟨"files/r2", "broken.pdf", "FAILED"⟩

def emptySession : SessionState := ⟨[], none⟩

/-- Folding string concatenation from an arbitrary initial accumulator
factors the accumulator out to the left. -/
lemma foldl_append_init {α : Type} (g : α → String) (L : List α) (init : String) :
    L.foldl (fun acc x => acc ++ g x) init = init ++ L.foldl (fun acc x => acc ++ g x) "" := by
  induction L generalizing init with
  | nil => simp [String.append_empty]
  | cons x xs ih =>
    simp only [List.foldl_cons, String.empty_append]
    rw [ih (init ++ g x), ih (g x), String.append_assoc]

/-- The history rendering loop distributes over list append. -/
lemma render_turns_append (a b : List (String × String)) :
    render_turns (a ++ b) = render_turns a ++ render_turns b := by
  simp only [render_turns, List.foldl_append]
  exact foldl_append_init render_line b (render_turns a)

/-- Rendering a single turn yields its line. -/
lemma render_turns_singleton (x : String × String) :
    render_turns [x] = render_line x := by
  simp [render_turns, String.empty_append]

/-- The rendered line of a user turn. -/
lemma render_line_user (m : String) : render_line ("user", m) = "USER: " ++ m ++ "\n" := rfl

/-- The fold of lines 216-218 equals the concatenation of the individual
turn lines, in order. -/
lemma render_turns_join (l : List (String × String)) :
    render_turns l = String.join (l.map render_line) := by
  simp [render_turns, String.join, List.foldl_map]

/-- Dropping the last element of a history with one turn appended gives
back the history. -/
lemma dropLast_append_one (l : List (String × String)) (a : String × String) :
    (l ++ [a]).dropLast = l := by simp

/-- Each successful turn contributes exactly two log entries. -/
lemma turnPairs_length (l : List (ListResult × String × String)) :
    (turnPairs l).length = 2 * l.length := by
  induction l with
  | nil => rfl
  | cons t ts ih => simp only [turnPairs, List.length_cons, ih]; omega

/-- Running a concatenation of turn sequences is running them in order. -/
lemma runTurns_append (mode : ChatMode) (s : SessionState)
    (a b : List (ListResult × String × Option String)) :
    runTurns mode s (a ++ b) = runTurns mode (runTurns mode s a) b := by
  induction a generalizing s with
  | nil => rfl
  | cons t ts ih =>
    simp only [List.cons_append, runTurns]
    exact ih _

/-- Session state after a sequence of submitted turns whose generation
calls all succeed, provided each of those runs passes the context check:
the log grows by exactly the (user, assistant) pairs of the turns and
the active file reference is untouched. -/
lemma runTurns_success (mode : ChatMode) (s : SessionState)
    (turns : List (ListResult × String × String))
    (hres : ∀ t ∈ turns, ∃ fs,
      resolveContext mode s.current_file_uri t.1 = ContextResolution.resolved fs) :
    runTurns mode s (turns.map succTurn)
      = { s with chat_history := s.chat_history ++ turnPairs turns } := by
  induction turns generalizing s with
  | nil =>
    cases s
    simp [runTurns, turnPairs]
  | cons t ts ih =>
    obtain ⟨fs, hfs⟩ := hres t (List.mem_cons_self t ts)
    have hstep : (runTurn mode s t.1 t.2.1 (some t.2.2)).session
        = { s with chat_history := s.chat_history ++ [("user", t.2.1), ("assistant", t.2.2)] } := by
      cases s
      simp only [runTurn] at hfs ⊢
      simp only [hfs]
      simp [List.append_assoc]
    show runTurns mode (runTurn mode s t.1 t.2.1 (some t.2.2)).session (ts.map succTurn) = _
    rw [hstep]
    rw [ih ⟨s.chat_history ++ [("user", t.2.1), ("assistant", t.2.2)], s.current_file_uri⟩
        (fun u hu => hres u (List.mem_cons_of_mem t hu))]
    simp [turnPairs, List.append_assoc]

/-- C1: the claim says a FAILED handle is never assigned as active file
(true: first equation, current_file_uri stays none and an error is shown)
and that after a READY handle the temp file is absent (false: second
equation, the handle is assigned and success is shown, but st.rerun() at
line 115 ends the run before the cleanup of lines 117-118, so tempExists
is still true).  Both equations evaluate the upload handler on a handle
that polls from PROCESSING to a terminal state. -/
theorem upload_ready_skips_temp_cleanup :
    uploadHandler emptySession ⟨true, some fileProcessing, [some fileFailed]⟩
      = some ⟨⟨[], none⟩, false, true, false, false⟩
  ∧ uploadHandler emptySession ⟨true, some fileProcessing, [some fileReady]⟩
      = some ⟨⟨[], some fileReady⟩, true, false, true, true⟩ :=
  ⟨rfl, rfl⟩

/-- C2 counterexample: the claim says the local temp artifact is cleaned
up on every exception during write/upload/poll.  Here the upload call of
line 102 raises after the temp file was written; the handler reports the
error and leaves the session unchanged, but the result records
tempExists = true: the cleanup of lines 117-118 sits inside the try block
before the except clause, so the exception skips it. -/
theorem upload_exception_temp_not_cleaned_cex :
    uploadHandler emptySession ⟨true, none, []⟩
      = some ⟨emptySession, true, true, false, false⟩ := rfl

/-- C2 amended: for every exception raised during the write/upload/poll
sequence, the error is reported inline, session state is unchanged and
the run does not crash; the local temp artifact however is NOT deleted —
it exists afterwards exactly when the write had already happened. -/
theorem upload_exception_atomicity (s : SessionState) (e : UploadEnv)
    (h : raisedDuringUpload e) :
    uploadHandler s e = some ⟨s, e.writeOk, true, false, false⟩ := by
  obtain ⟨w, u, pr⟩ := e
  rcases h with h | h | ⟨f0, hf0, hp⟩
  · simp only at h
    subst h
    rfl
  · simp only at h
    subst h
    cases w <;> rfl
  · simp only at hf0 hp
    subst hf0
    cases w
    · rfl
    · simp [uploadHandler, hp]

/-- Witness for C2 amended, at the counterexample input: the upload call
raises after the write; the temp file remains. -/
theorem upload_exception_atomicity_witness :
    uploadHandler emptySession ⟨true, none, []⟩
      = some ⟨emptySession, true, true, false, false⟩ :=
  upload_exception_atomicity emptySession ⟨true, none, []⟩ (Or.inr (Or.inl rfl))

/-- C4: for every sequence of submitted turns that all pass the context
check and whose generation calls all succeed, the conversation log grows
by exactly the alternating (user, assistant) pairs of the turns in
chronological order, hence has length 2N from an empty log. -/
theorem conversation_all_success_pairs (mode : ChatMode) (s : SessionState)
    (turns : List (ListResult × String × String))
    (hres : ∀ t ∈ turns, ∃ fs,
      resolveContext mode s.current_file_uri t.1 = ContextResolution.resolved fs) :
    (runTurns mode s (turns.map succTurn)).chat_history
      = s.chat_history ++ turnPairs turns
  ∧ (runTurns mode s (turns.map succTurn)).chat_history.length
      = s.chat_history.length + 2 * turns.length := by
  rw [runTurns_success mode s turns hres]
  exact ⟨rfl, by simp [turnPairs_length]⟩

/-- Witness for C4: two successful turns in Single Document mode from an
empty conversation produce the four alternating entries. -/
theorem conversation_all_success_pairs_witness :
    (runTurns ChatMode.singleDocument ⟨[], some fileReady⟩
        ([(ListResult.ok [], "q1", "a1"), (ListResult.ok [], "q2", "a2")].map succTurn)).chat_history
      = [("user", "q1"), ("assistant", "a1"), ("user", "q2"), ("assistant", "a2")]
  ∧ (runTurns ChatMode.singleDocument ⟨[], some fileReady⟩
        ([(ListResult.ok [], "q1", "a1"), (ListResult.ok [], "q2", "a2")].map succTurn)).chat_history.length
      = 0 + 2 * 2 :=
  conversation_all_success_pairs ChatMode.singleDocument ⟨[], some fileReady⟩
    [(ListResult.ok [], "q1", "a1"), (ListResult.ok [], "q2", "a2")]
    (fun t ht => ⟨[fileReady], rfl⟩)

/-- C3: if the generation call raises on turn k (after k-1 successful
turns from an empty conversation), the failing run shows the error in
place of the reply, the log afterwards is the k-1 pairs followed by the
turn-k user entry only — length 2k-1 — and the prompt assembled on turn
k+1 renders the turn-k user text as the final context line, with no
assistant line for it, before the new user marker. -/
theorem generation_failure_turn_shape (mode : ChatMode) (cf : Option GeminiFile)
    (pre : List (ListResult × String × String)) (lk : ListResult) (pk p2 : String)
    (fsk : List GeminiFile)
    (hres : ∀ t ∈ pre, ∃ fs, resolveContext mode cf t.1 = ContextResolution.resolved fs)
    (hresk : resolveContext mode cf lk = ContextResolution.resolved fsk) :
    (runTurns mode ⟨[], cf⟩ (pre.map succTurn ++ [(lk, pk, none)])).chat_history
        = turnPairs pre ++ [("user", pk)]
  ∧ (runTurns mode ⟨[], cf⟩ (pre.map succTurn ++ [(lk, pk, none)])).chat_history.length
        = 2 * (pre.length + 1) - 1
  ∧ (runTurn mode (runTurns mode ⟨[], cf⟩ (pre.map succTurn)) lk pk none).errorShown = true
  ∧ final_prompt ((runTurns mode ⟨[], cf⟩ (pre.map succTurn ++ [(lk, pk, none)])).chat_history
        ++ [("user", p2)]) p2
      = system_prompt ++ "\n\n" ++ (render_turns (turnPairs pre) ++ ("USER: " ++ pk ++ "\n"))
        ++ "\nUSER: " ++ p2 ++ "\nASSISTANT:" := by
  have hpre : runTurns mode ⟨[], cf⟩ (pre.map succTurn) = ⟨turnPairs pre, cf⟩ := by
    rw [runTurns_success mode ⟨[], cf⟩ pre hres]
    simp
  have hfail : runTurns mode ⟨[], cf⟩ (pre.map succTurn ++ [(lk, pk, none)])
      = ⟨turnPairs pre ++ [("user", pk)], cf⟩ := by
    rw [runTurns_append, hpre]
    show (runTurn mode ⟨turnPairs pre, cf⟩ lk pk none).session = _
    simp [runTurn, hresk]
  refine ⟨by rw [hfail], ?_, ?_, ?_⟩
  · rw [hfail]
    show (turnPairs pre ++ [("user", pk)]).length = _
    simp only [List.length_append, turnPairs_length, List.length_cons, List.length_nil]
    omega
  · rw [hpre]
    simp [runTurn, hresk]
  · rw [hfail]
    show final_prompt ((turnPairs pre ++ [("user", pk)]) ++ [("user", p2)]) p2 = _
    simp only [final_prompt, context_prompt, dropLast_append_one]
    rw [render_turns_append, render_turns_singleton, render_line_user]

/-- Witness for C3: one successful turn, then a failing turn; the log has
three entries and the next prompt ends its context with the unanswered
user question. -/
theorem generation_failure_turn_shape_witness :
    (runTurns ChatMode.singleDocument ⟨[], some fileReady⟩
        ([(ListResult.ok [], "q1", "a1")].map succTurn ++ [(ListResult.ok [], "q2", none)])).chat_history
        = turnPairs [(ListResult.ok [], "q1", "a1")] ++ [("user", "q2")]
  ∧ (runTurns ChatMode.singleDocument ⟨[], some fileReady⟩
        ([(ListResult.ok [], "q1", "a1")].map succTurn ++ [(ListResult.ok [], "q2", none)])).chat_history.length
        = 2 * ([(ListResult.ok [], "q1", "a1")].length + 1) - 1
  ∧ (runTurn ChatMode.singleDocument
        (runTurns ChatMode.singleDocument ⟨[], some fileReady⟩
          ([(ListResult.ok [], "q1", "a1")].map succTurn))
        (ListResult.ok []) "q2" none).errorShown = true
  ∧ final_prompt ((runTurns ChatMode.singleDocument ⟨[], some fileReady⟩
        ([(ListResult.ok [], "q1", "a1")].map succTurn ++ [(ListResult.ok [], "q2", none)])).chat_history
        ++ [("user", "q3")]) "q3"
      = system_prompt ++ "\n\n"
        ++ (render_turns (turnPairs [(ListResult.ok [], "q1", "a1")]) ++ ("USER: " ++ "q2" ++ "\n"))
        ++ "\nUSER: " ++ "q3" ++ "\nASSISTANT:" :=
  generation_failure_turn_shape ChatMode.singleDocument (some fileReady)
    [(ListResult.ok [], "q1", "a1")] (ListResult.ok []) "q2" "q3" [fileReady]
    (fun t ht => ⟨[fileReady], rfl⟩) rfl

/-- C5 counterexample: the claim describes the fixed system-instruction
block as containing exactly four numbered constraints, but the block of
lines 207-214 has five numbered instruction lines (the first is the
role statement, followed by the four constraints). -/
theorem system_prompt_numbered_lines_cex :
    countNumberedLines system_prompt = 5 := by decide

/-- C5 amended: for every turn that passes the context check, the prompt
sent to generation is the fixed system block, followed by every prior
turn (excluding the newest, not-yet-answered user turn) rendered as
"ROLE: text" lines in chronological order with no truncation, followed by
the newest user text and an empty assistant-turn marker; the system block
has five numbered lines — a role statement and then the four constraints
(answer only from the documents, no outside knowledge, state absence
explicitly, cite the document name). -/
theorem final_prompt_assembly (mode : ChatMode) (s : SessionState) (l : ListResult)
    (p : String) (g : Option String) (fs : List GeminiFile)
    (h : resolveContext mode s.current_file_uri l = ContextResolution.resolved fs) :
    (runTurn mode s l p g).generationCall
      = some (fs, system_prompt ++ "\n\n" ++ render_turns s.chat_history
          ++ "\nUSER: " ++ p ++ "\nASSISTANT:")
  ∧ render_turns s.chat_history = String.join (s.chat_history.map render_line)
  ∧ (splitLines system_prompt).filter (fun ln => isNumberedLine ln)
      = ["            1. You are a Knowledge Base Assistant.",
         "            2. Answer the user\x27s question STRICTLY based on the provided documents.",
         "            3. Do NOT use outside knowledge or general training data.",
         "            4. If the answer cannot be found in the documents, politely state that the information is not present in the files.",
         "            5. Cite the document name if possible."] := by
  refine ⟨?_, render_turns_join s.chat_history, by decide⟩
  cases g <;> simp [runTurn, h, final_prompt, context_prompt, dropLast_append_one]

/-- Witness for C5 amended: a turn submitted after one completed exchange
in Single Document mode. -/
theorem final_prompt_assembly_witness :
    (runTurn ChatMode.singleDocument ⟨[("user", "q1"), ("assistant", "a1")], some fileReady⟩
        (ListResult.ok []) "q2" none).generationCall
      = some ([fileReady], system_prompt ++ "\n\n"
          ++ render_turns [("user", "q1"), ("assistant", "a1")]
          ++ "\nUSER: " ++ "q2" ++ "\nASSISTANT:")
  ∧ render_turns [("user", "q1"), ("assistant", "a1")]
      = String.join ([("user", "q1"), ("assistant", "a1")].map render_line)
  ∧ (splitLines system_prompt).filter (fun ln => isNumberedLine ln)
      = ["            1. You are a Knowledge Base Assistant.",
         "            2. Answer the user\x27s question STRICTLY based on the provided documents.",
         "            3. Do NOT use outside knowledge or general training data.",
         "            4. If the answer cannot be found in the documents, politely state that the information is not present in the files.",
         "            5. Cite the document name if possible."] :=
  final_prompt_assembly ChatMode.singleDocument
    ⟨[("user", "q1"), ("assistant", "a1")], some fileReady⟩
    (ListResult.ok []) "q2" none [fileReady] rfl

/-- C6: in Single Document mode a turn with no active file is blocked
before generation is invoked (the run stops at line 169, generationCall
is none, session untouched); with active file H the resolved sequence is
exactly [H] and the generation call receives exactly [H]. -/
theorem single_mode_context_resolution (ch : List (String × String)) (h : GeminiFile)
    (l : ListResult) (p : String) (g : Option String) :
    runTurn ChatMode.singleDocument ⟨ch, none⟩ l p g
      = { session := ⟨ch, none⟩, generationCall := none, errorShown := false,
          blockReason := some BlockReason.noActiveFile }
  ∧ resolveContext ChatMode.singleDocument (some h) l = ContextResolution.resolved [h]
  ∧ (runTurn ChatMode.singleDocument ⟨ch, some h⟩ l p g).generationCall
      = some ([h], final_prompt (ch ++ [("user", p)]) p) := by
  refine ⟨rfl, rfl, ?_⟩
  cases g <;> rfl

/-- C7: in All Documents mode the resolved sequence is exactly the
listing fetched on that very run, independent of the session active file;
an empty listing blocks the turn with a warning before generation, and a
raised listing call blocks it with an error. -/
theorem all_mode_context_resolution (s s2 : SessionState) (files : List GeminiFile)
    (f : GeminiFile) (p : String) (g : Option String) (l : ListResult) :
    resolveContext ChatMode.allDocuments s.current_file_uri (ListResult.ok (f :: files))
      = ContextResolution.resolved (f :: files)
  ∧ resolveContext ChatMode.allDocuments s.current_file_uri l
      = resolveContext ChatMode.allDocuments s2.current_file_uri l
  ∧ runTurn ChatMode.allDocuments s (ListResult.ok []) p g
      = { session := s, generationCall := none, errorShown := false,
          blockReason := some BlockReason.noFilesOnServer }
  ∧ (runTurn ChatMode.allDocuments s (ListResult.ok (f :: files)) p g).generationCall
      = some (f :: files, final_prompt (s.chat_history ++ [("user", p)]) p)
  ∧ runTurn ChatMode.allDocuments s ListResult.err p g
      = { session := s, generationCall := none, errorShown := false,
          blockReason := some BlockReason.listFailed } := by
  refine ⟨by simp [resolveContext], rfl, rfl, ?_, rfl⟩
  cases g <;> simp [runTurn, resolveContext, final_prompt, context_prompt]

/-- C8: the Clear Chat History action empties the conversation and leaves
the active file (and the mode, which it never touches) unchanged, so a
subsequent Single Document turn still sends the previously selected
file. -/
theorem clear_chat_frame_effect (ch : List (String × String)) (cf : Option GeminiFile)
    (h : GeminiFile) (l : ListResult) (p : String) (g : Option String) :
    (clearChat ⟨ch, cf⟩).chat_history = []
  ∧ (clearChat ⟨ch, cf⟩).current_file_uri = cf
  ∧ (runTurn ChatMode.singleDocument (clearChat ⟨ch, some h⟩) l p g).generationCall
      = some ([h], final_prompt [("user", p)] p) := by
  refine ⟨rfl, rfl, ?_⟩
  cases g <;> rfl

/-- C9: with an empty interactive key input the credential gate stops the
run before anything else executes, whatever the GEMINI_API_KEY
environment value is; and the gate outcome is identical for any two
environment values, because the environment fallback of lines 73-74 is
commented out. -/
theorem credential_gate_env_noninterference (input : String) (env env2 : Option String) :
    startApp "" env = AppStart.stoppedNoKey
  ∧ api_key "" env = none
  ∧ startApp input env = startApp input env2 :=
  ⟨rfl, rfl, rfl⟩

/-- C10: the Load Selected File handler (line 136) assigns the chosen
listed handle as the active file with no check of its state tag, and a
subsequent Single Document turn sends exactly that handle to generation,
whatever its state — including FAILED or PROCESSING. -/
theorem load_selected_unconditional (s : SessionState) (files : List GeminiFile)
    (f : GeminiFile) (hf : f ∈ files) (l : ListResult) (p : String) (g : Option String) :
    (loadSelectedFile s f).current_file_uri = some f
  ∧ (runTurn ChatMode.singleDocument (loadSelectedFile s f) l p g).generationCall
      = some ([f], final_prompt (s.chat_history ++ [("user", p)]) p) := by
  refine ⟨rfl, ?_⟩
  cases g <;> rfl

/-- Witness for C10, at a listed handle whose state is FAILED: it is
loaded and sent to generation all the same. -/
theorem load_selected_unconditional_witness :
    (loadSelectedFile emptySession fileFailed).current_file_uri = some fileFailed
  ∧ (runTurn ChatMode.singleDocument (loadSelectedFile emptySession fileFailed)
        (ListResult.ok []) "q" none).generationCall
      = some ([fileFailed], final_prompt ([] ++ [("user", "q")]) "q") :=
  load_selected_unconditional emptySession [fileFailed] fileFailed
    (List.mem_singleton.mpr rfl) (ListResult.ok []) "q" none
